import Mathlib

/-!
# Verification of the Odoo module static-analysis engine

Shallow embedding of the structural-extraction core of the `odoo_analyzer`
repository (`src/parser.py`, `src/visualizer.py`) and proofs about the
claims of its specification.

The embedding models:
* the restricted Python expression/statement fragment the extractor
  recognizes (`PyExpr`, `PyStmt`, `ClassDef`),
* `ast.literal_eval` on that fragment (`literalEval`),
* the model/field/method extraction of `OdooModuleParser`
  (`extractModelInfo`, `extractFieldInfo`, `extractMethods`,
  `parseModelFile`, `parseModels`),
* cyclomatic complexity (`computeCyclomaticComplexity`),
* the access-rule CSV row parser (`parseAccessRow`, `parseAccessFile`),
* dependency analysis (`analyzeDependencies`),
* the security-coverage accessor (`getSecurityCoverage`) and the JSON
  export (`exportModuleData`, `jsonSerializable`).

Python dictionaries are modeled as association lists with
insertion-order-preserving update (`dinsert` / `dget`); Python `set`s as
duplicate-free lists (`setAdd`).
-/

namespace OdooAnalyzer

/-- A Python runtime value as produced by `ast.literal_eval` on the
expression fragment the parser evaluates (strings, ints, bools, `None`,
lists).  `PyVal.none` also stands for Python's `None`. -/
inductive PyVal where
  | none : PyVal
  | bool : Bool → PyVal
  | int : Int → PyVal
  | str : String → PyVal
  | list : List PyVal → PyVal
deriving Repr

mutual
/-- Structural equality test on `PyVal` (Python `==` restricted to the
literal fragment; the numeric aliasing `True == 1` of full Python never
arises for the string-valued keys the parser uses and is not modeled). -/
def PyVal.beq : PyVal → PyVal → Bool
  | .none, .none => true
  | .bool a, .bool b => a == b
  | .int a, .int b => a == b
  | .str a, .str b => a == b
  | .list a, .list b => PyVal.beqList a b
  | _, _ => false

/-- Pointwise equality test on lists of `PyVal`. -/
def PyVal.beqList : List PyVal → List PyVal → Bool
  | [], [] => true
  | a :: as', b :: bs' => PyVal.beq a b && PyVal.beqList as' bs'
  | _, _ => false
end

mutual
theorem PyVal.beq_iff : ∀ a b : PyVal, PyVal.beq a b = true ↔ a = b
  | .none, b => by cases b <;> simp [PyVal.beq]
  | .bool a, b => by cases b <;> simp [PyVal.beq]
  | .int a, b => by cases b <;> simp [PyVal.beq]
  | .str a, b => by cases b <;> simp [PyVal.beq]
  | .list a, b => by
      cases b <;> simp [PyVal.beq]
      exact PyVal.beqList_iff a _

theorem PyVal.beqList_iff : ∀ a b : List PyVal, PyVal.beqList a b = true ↔ a = b
  | [], b => by cases b <;> simp [PyVal.beqList]
  | a :: as', b => by
      cases b with
      | nil => simp [PyVal.beqList]
      | cons b bs' =>
        simp only [PyVal.beqList, Bool.and_eq_true, List.cons.injEq]
        rw [PyVal.beq_iff, PyVal.beqList_iff]
end

instance : DecidableEq PyVal := fun a b =>
  decidable_of_iff (PyVal.beq a b = true) (PyVal.beq_iff a b)

/-- Python truthiness (`bool(v)`) on the modeled value fragment. -/
def pyTruthy : PyVal → Bool
  | .none => false
  | .bool b => b
  | .int n => n != 0
  | .str s => !s.isEmpty
  | .list xs => !xs.isEmpty

/-! ## Python dictionaries and sets

`dinsert`/`dget` model `d[k] = v` and `d.get(k)` / `d[k]` on a `dict`:
updating an existing key keeps its insertion position, a fresh key is
appended.  `setAdd` models `s.add(x)` on a `set`. -/

/-- Dict update `d[k] = v`. -/
def dinsert {α β : Type} [DecidableEq α] (k : α) (v : β) :
    List (α × β) → List (α × β)
  | [] => [(k, v)]
  | (k', v') :: rest =>
      if k = k' then (k, v) :: rest else (k', v') :: dinsert k v rest

/-- Dict lookup `d.get(k)`. -/
def dget {α β : Type} [DecidableEq α] (k : α) : List (α × β) → Option β
  | [] => Option.none
  | (k', v') :: rest => if k = k' then some v' else dget k rest

/-- Set insertion `s.add(x)` (no duplicates). -/
def setAdd {α : Type} [DecidableEq α] (x : α) (s : List α) : List α :=
  if x ∈ s then s else s ++ [x]

theorem dget_dinsert_self {α β : Type} [DecidableEq α] (k : α) (v : β)
    (l : List (α × β)) : dget k (dinsert k v l) = some v := by
  induction l with
  | nil => simp [dinsert, dget]
  | cons p rest ih =>
      obtain ⟨k', v'⟩ := p
      by_cases h : k = k' <;> simp [dinsert, dget, h, ih]

theorem dget_dinsert_ne {α β : Type} [DecidableEq α] {k k' : α} (v : β)
    (l : List (α × β)) (h : k ≠ k') : dget k (dinsert k' v l) = dget k l := by
  induction l with
  | nil => simp [dinsert, dget, h]
  | cons p rest ih =>
      obtain ⟨k'', v''⟩ := p
      by_cases h2 : k' = k''
      · subst h2; simp [dinsert, dget, h]
      · by_cases h3 : k = k'' <;> simp [dinsert, dget, h2, h3, ih]

theorem dget_isSome_iff_mem {α β : Type} [DecidableEq α] (k : α)
    (l : List (α × β)) : (dget k l).isSome = true ↔ k ∈ l.map Prod.fst := by
  induction l with
  | nil => simp [dget]
  | cons p rest ih =>
      obtain ⟨k', v'⟩ := p
      by_cases h : k = k' <;> simp [dget, h, ih]

theorem mem_setAdd {α : Type} [DecidableEq α] (x y : α) (s : List α) :
    x ∈ setAdd y s ↔ x = y ∨ x ∈ s := by
  unfold setAdd
  by_cases h : y ∈ s
  · simp only [if_pos h]
    constructor
    · exact Or.inr
    · rintro (rfl | hx)
      · exact h
      · exact hx
  · simp only [if_neg h, List.mem_append, List.mem_singleton]
    tauto

theorem nodup_setAdd {α : Type} [DecidableEq α] (y : α) (s : List α)
    (h : s.Nodup) : (setAdd y s).Nodup := by
  unfold setAdd
  by_cases hy : y ∈ s
  · simpa [hy]
  · simp only [if_neg hy, List.nodup_append, List.nodup_cons, List.nodup_nil]
    refine ⟨h, by simp, ?_⟩
    intro a ha hb
    simp only [List.mem_singleton] at hb
    exact hy (hb ▸ ha)

/-! ## The Python syntax fragment the extractor consumes -/

/-- Python expressions of the fragment `parser.py` inspects: constants,
names, attribute accesses, calls with positional and keyword arguments,
list displays and boolean operators (`ast.BoolOp`, n-ary as in CPython). -/
inductive PyExpr where
  | constStr : String → PyExpr
  | constInt : Int → PyExpr
  | constBool : Bool → PyExpr
  | constNone : PyExpr
  | listE : List PyExpr → PyExpr
  | nameE : String → PyExpr
  | attr : PyExpr → String → PyExpr
  | call : PyExpr → List PyExpr → List (String × PyExpr) → PyExpr
  | boolop : Bool → List PyExpr → PyExpr
deriving Repr

/-- Python statements of the fragment `parser.py` inspects inside class
bodies and function bodies.  `functionDef` carries decorator expressions,
parameter names (`args.args`), the body and the source line span
(`lineno`, `end_lineno`). -/
inductive PyStmt where
  | assign : List PyExpr → PyExpr → PyStmt
  | functionDef : String → List PyExpr → List String → List PyStmt →
      Int → Int → PyStmt
  | exprStmt : PyExpr → PyStmt
  | ifS : PyExpr → List PyStmt → List PyStmt → PyStmt
  | whileS : PyExpr → List PyStmt → PyStmt
  | forS : PyExpr → PyExpr → List PyStmt → List PyStmt → PyStmt
  | ret : Option PyExpr → PyStmt
  | passS : PyStmt
deriving Repr

/-- A Python class definition (`ast.ClassDef`): name, base expressions,
body statements. -/
structure ClassDef where
  name : String
  bases : List PyExpr
  body : List PyStmt
deriving Repr

mutual
/-- `ast.literal_eval` on the modeled expression fragment: succeeds
exactly on constants and (nested) list displays, fails (raises
`ValueError`, modeled as `Option.none`) on names, attributes, calls and
boolean operators. -/
def literalEval : PyExpr → Option PyVal
  | .constStr s => some (.str s)
  | .constInt n => some (.int n)
  | .constBool b => some (.bool b)
  | .constNone => some .none
  | .listE xs => (literalEvalList xs).map PyVal.list
  | .nameE _ => Option.none
  | .attr _ _ => Option.none
  | .call _ _ _ => Option.none
  | .boolop _ _ => Option.none

/-- `ast.literal_eval` over the elements of a list display
(all-or-nothing). -/
def literalEvalList : List PyExpr → Option (List PyVal)
  | [] => some []
  | x :: xs => do
      let v ← literalEval x
      let vs ← literalEvalList xs
      pure (v :: vs)
end

/-! ## Cyclomatic complexity (`_compute_cyclomatic_complexity`)

The source walks every node of the function's subtree (`ast.walk`) and
adds 1 for each `If`/`While`/`For` and `len(values) - 1` for each
`BoolOp`.  The walk order is irrelevant for a sum, so the embedding sums
the per-node contributions structurally. -/

mutual
/-- Total branch contribution of all nodes in an expression subtree. -/
def exprBranches : PyExpr → Nat
  | .constStr _ | .constInt _ | .constBool _ | .constNone | .nameE _ => 0
  | .listE xs => exprListBranches xs
  | .attr v _ => exprBranches v
  | .call f args kws => exprBranches f + exprListBranches args + kwBranches kws
  | .boolop _ values => (values.length - 1) + exprListBranches values

/-- Branch contributions of a list of expressions. -/
def exprListBranches : List PyExpr → Nat
  | [] => 0
  | x :: xs => exprBranches x + exprListBranches xs

/-- Branch contributions of keyword arguments. -/
def kwBranches : List (String × PyExpr) → Nat
  | [] => 0
  | (_, v) :: rest => exprBranches v + kwBranches rest
end

mutual
/-- Total branch contribution of all nodes in a statement subtree
(`If`/`While`/`For` nodes contribute 1 each, `BoolOp` nodes contribute
`len(values) - 1`). -/
def stmtBranches : PyStmt → Nat
  | .assign ts v => exprListBranches ts + exprBranches v
  | .functionDef _ decs _ body _ _ => exprListBranches decs + stmtListBranches body
  | .exprStmt e => exprBranches e
  | .ifS t b o => 1 + exprBranches t + stmtListBranches b + stmtListBranches o
  | .whileS t b => 1 + exprBranches t + stmtListBranches b
  | .forS tg it b o =>
      1 + exprBranches tg + exprBranches it + stmtListBranches b +
        stmtListBranches o
  | .ret (some e) => exprBranches e
  | .ret Option.none => 0
  | .passS => 0

/-- Branch contributions of a list of statements. -/
def stmtListBranches : List PyStmt → Nat
  | [] => 0
  | s :: ss => stmtBranches s + stmtListBranches ss
end

/-- `_compute_cyclomatic_complexity`: base complexity 1 plus the branch
contributions of every node in the subtree. -/
def computeCyclomaticComplexity (s : PyStmt) : Nat :=
  1 + stmtBranches s

mutual
/-- `true` iff the expression subtree contains no boolean-short-circuit
node (`ast.BoolOp`). -/
def noBranchExpr : PyExpr → Bool
  | .constStr _ | .constInt _ | .constBool _ | .constNone | .nameE _ => true
  | .listE xs => noBranchExprList xs
  | .attr v _ => noBranchExpr v
  | .call f args kws =>
      noBranchExpr f && noBranchExprList args && noBranchKws kws
  | .boolop _ _ => false

/-- No branch node in any expression of the list. -/
def noBranchExprList : List PyExpr → Bool
  | [] => true
  | x :: xs => noBranchExpr x && noBranchExprList xs

/-- No branch node in any keyword-argument value. -/
def noBranchKws : List (String × PyExpr) → Bool
  | [] => true
  | (_, v) :: rest => noBranchExpr v && noBranchKws rest
end

mutual
/-- `true` iff the statement subtree contains no conditional (`ast.If`),
no loop (`ast.While`/`ast.For`) and no boolean-short-circuit expression
(`ast.BoolOp`). -/
def noBranchStmt : PyStmt → Bool
  | .assign ts v => noBranchExprList ts && noBranchExpr v
  | .functionDef _ decs _ body _ _ => noBranchExprList decs && noBranchStmtList body
  | .exprStmt e => noBranchExpr e
  | .ifS _ _ _ => false
  | .whileS _ _ => false
  | .forS _ _ _ _ => false
  | .ret (some e) => noBranchExpr e
  | .ret Option.none => true
  | .passS => true

/-- No branch node in any statement of the list. -/
def noBranchStmtList : List PyStmt → Bool
  | [] => true
  | s :: ss => noBranchStmt s && noBranchStmtList ss
end

mutual
theorem exprBranches_of_noBranch :
    ∀ e : PyExpr, noBranchExpr e = true → exprBranches e = 0
  | .constStr _, _ | .constInt _, _ | .constBool _, _ | .constNone, _
  | .nameE _, _ => rfl
  | .listE xs, h => by
      simpa [exprBranches] using
        exprListBranches_of_noBranch xs (by simpa [noBranchExpr] using h)
  | .attr v _, h => by
      simpa [exprBranches] using
        exprBranches_of_noBranch v (by simpa [noBranchExpr] using h)
  | .call f args kws, h => by
      simp only [noBranchExpr, Bool.and_eq_true] at h
      simp [exprBranches, exprBranches_of_noBranch f h.1.1,
        exprListBranches_of_noBranch args h.1.2, kwBranches_of_noBranch kws h.2]
  | .boolop _ _, h => by simp [noBranchExpr] at h

theorem exprListBranches_of_noBranch :
    ∀ xs : List PyExpr, noBranchExprList xs = true → exprListBranches xs = 0
  | [], _ => rfl
  | x :: xs, h => by
      simp only [noBranchExprList, Bool.and_eq_true] at h
      simp [exprListBranches, exprBranches_of_noBranch x h.1,
        exprListBranches_of_noBranch xs h.2]

theorem kwBranches_of_noBranch :
    ∀ kws : List (String × PyExpr), noBranchKws kws = true → kwBranches kws = 0
  | [], _ => rfl
  | (_, v) :: rest, h => by
      simp only [noBranchKws, Bool.and_eq_true] at h
      simp [kwBranches, exprBranches_of_noBranch v h.1,
        kwBranches_of_noBranch rest h.2]
end

mutual
theorem stmtBranches_of_noBranch :
    ∀ s : PyStmt, noBranchStmt s = true → stmtBranches s = 0
  | .assign ts v, h => by
      simp only [noBranchStmt, Bool.and_eq_true] at h
      simp [stmtBranches, exprListBranches_of_noBranch ts h.1,
        exprBranches_of_noBranch v h.2]
  | .functionDef _ decs _ body _ _, h => by
      simp only [noBranchStmt, Bool.and_eq_true] at h
      simp [stmtBranches, exprListBranches_of_noBranch decs h.1,
        stmtListBranches_of_noBranch body h.2]
  | .exprStmt e, h => by
      simpa [stmtBranches] using
        exprBranches_of_noBranch e (by simpa [noBranchStmt] using h)
  | .ifS _ _ _, h => by simp [noBranchStmt] at h
  | .whileS _ _, h => by simp [noBranchStmt] at h
  | .forS _ _ _ _, h => by simp [noBranchStmt] at h
  | .ret (some e), h => by
      simpa [stmtBranches] using
        exprBranches_of_noBranch e (by simpa [noBranchStmt] using h)
  | .ret Option.none, _ => rfl
  | .passS, _ => rfl

theorem stmtListBranches_of_noBranch :
    ∀ ss : List PyStmt, noBranchStmtList ss = true → stmtListBranches ss = 0
  | [], _ => rfl
  | s :: ss, h => by
      simp only [noBranchStmtList, Bool.and_eq_true] at h
      simp [stmtListBranches, stmtBranches_of_noBranch s h.1,
        stmtListBranches_of_noBranch ss h.2]
end

/-! ## The extracted data model (`parser.py` dataclasses)

Attributes filled from `params.get(...)` can hold any literal value or
Python `None` (the dataclass annotations are not enforced at runtime), so
they are modeled as `PyVal`. -/

/-- `OdooField` dataclass. -/
structure OdooField where
  name : String
  field_type : String
  required : PyVal
  related_model : PyVal
  string : PyVal
  default : PyVal
  compute : PyVal
  store : PyVal
  readonly : PyVal
  inverse : PyVal
  index : PyVal
  tracking : PyVal
  help : PyVal
deriving Repr, DecidableEq

/-- `OdooMethod` dataclass. -/
structure OdooMethod where
  name : String
  decorators : List String
  parameters : List String
  complexity : Nat
  line_count : Int
  docstring : Option String
  api_depends : List String
  is_constraint : Bool
  is_compute : Bool
  is_onchange : Bool
deriving Repr, DecidableEq

/-- `OdooModel` dataclass.  `name`, `inherit`, `description`, `order` and
`record_name` hold whatever literal `ast.literal_eval` produced, so they
are `PyVal`s.  `constraints` is never populated: the `_sql_constraints`
branch in `_extract_model_info` sits in an `elif` whose condition repeats
the preceding `if` (`isinstance(item, ast.Assign)`) and is unreachable. -/
structure OdooModel where
  name : PyVal
  inherit : PyVal
  description : PyVal
  fields : List (String × OdooField)
  methods : List (String × OdooMethod)
  order : PyVal
  record_name : PyVal
  constraints : List PyVal
deriving Repr, DecidableEq

/-- `SecurityRule` dataclass. -/
structure SecurityRule where
  name : String
  model_id : String
  groups : List String
  perm_read : Bool
  perm_write : Bool
  perm_create : Bool
  perm_unlink : Bool
  domain_force : Option String
deriving Repr, DecidableEq

/-- `OdooView` dataclass (only views committed by `_parse_view_file`,
whose `model`/`type`/`arch` guard has passed, reach the model; those
attributes are therefore strings). -/
structure OdooView where
  name : String
  model : String
  type : String
  arch : String
  inherit_id : Option String
  priority : Int
  field_names : List String
deriving Repr, DecidableEq

/-- Alias for the `self.models` dictionary (keys are the values of the
`_name` declarations). -/
abbrev Models := List (PyVal × OdooModel)

/-- Python `str.startswith`. -/
def pyStartsWith (s pre : String) : Bool :=
  pre.data.isPrefixOf s.data

/-- `OdooModel(name="")` with dataclass defaults, as constructed at the
top of `_extract_model_info`. -/
def emptyModel : OdooModel :=
  { name := .str ""
    inherit := .list []
    description := .str ""
    fields := []
    methods := []
    order := .none
    record_name := .none
    constraints := [] }

/-! ## `_is_odoo_model`, `_get_model_name`, `_extract_field_info` -/

/-- `_is_odoo_model`: some base is an attribute access ending in `Model`
or the plain name `Model`. -/
def isOdooModel (c : ClassDef) : Bool :=
  c.bases.any fun b =>
    match b with
    | .attr _ a => a == "Model"
    | .nameE id => id == "Model"
    | _ => false

/-- `_get_model_name`: the first `_name = <literal>` assignment whose
value evaluates; returns Python `None` when none does (also when the
literal itself is `None`, which the caller treats identically). -/
def getModelName (body : List PyStmt) : PyVal :=
  match body with
  | [] => .none
  | .assign [.nameE t] v :: rest =>
      if t == "_name" then
        match literalEval v with
        | some val => val
        | Option.none => getModelName rest
      else getModelName rest
  | _ :: rest => getModelName rest

/-- `params.get(key, default)`: the stored value (which may be Python
`None`) when the key is present, the default otherwise. -/
def pget (params : List (String × PyVal)) (key : String) (dflt : PyVal) :
    PyVal :=
  match dget key params with
  | some v => v
  | Option.none => dflt

/-- `_extract_field_info`: recognizes `name = fields.<Type>(...)`
assignments.  Keyword arguments that `ast.literal_eval` cannot evaluate
are stored as `None` in the parameter bag (`params[kw.arg] = None`), and
`params.get` then returns that `None` rather than the documented
default. -/
def extractFieldInfo (item : PyStmt) : Option OdooField :=
  match item with
  | .assign [.nameE field_name] (.call (.attr (.nameE ns) field_type) args kws) =>
      if pyStartsWith field_name "_" then Option.none
      else if ns == "fields" then
        let params : List (String × PyVal) :=
          kws.foldl (fun acc (kw : String × PyExpr) =>
            dinsert kw.1 ((literalEval kw.2).getD .none) acc) []
        let related_model : PyVal :=
          if field_type ∈ ["Many2one", "One2many", "Many2many"] then
            match args with
            | a :: _ => (literalEval a).getD .none
            | [] => .none
          else .none
        some
          { name := field_name
            field_type := field_type
            related_model := related_model
            required := pget params "required" (.bool false)
            string := pget params "string" .none
            default := pget params "default" .none
            compute := pget params "compute" .none
            inverse := pget params "inverse" .none
            store := pget params "store" (.bool true)
            readonly := pget params "readonly" (.bool false)
            index := pget params "index" (.bool false)
            tracking := pget params "tracking" (.bool false)
            help := pget params "help" .none }
      else Option.none
  | _ => Option.none

/-! ## `_extract_model_info` (first pass) -/

/-- Handling of one class-body item in `_extract_model_info`: the
`_name`/`_inherit`/`_description`/`_order`/`_rec_name` chain (failures of
`ast.literal_eval` are swallowed), then field extraction
(`_extract_field_info` runs on every item). -/
def processModelItem (m : OdooModel) (item : PyStmt) : OdooModel :=
  let m :=
    match item with
    | .assign [.nameE t] v =>
        match literalEval v with
        | some val =>
            if t == "_name" then { m with name := val }
            else if t == "_inherit" then
              { m with inherit :=
                  match val with
                  | .str s => .list [.str s]
                  | other => other }
            else if t == "_description" then { m with description := val }
            else if t == "_order" then { m with order := val }
            else if t == "_rec_name" then { m with record_name := val }
            else m
        | Option.none => m
    | _ => m
  match extractFieldInfo item with
  | some f => { m with fields := dinsert f.name f m.fields }
  | Option.none => m

/-- `_extract_model_info`: fold the body items over `OdooModel(name="")`. -/
def extractModelInfo (c : ClassDef) : OdooModel :=
  c.body.foldl processModelItem emptyModel

/-! ## `_extract_methods` (second pass) -/

/-- `OdooMethod(name=n)` with dataclass defaults. -/
def newMethod (n : String) : OdooMethod :=
  { name := n
    decorators := []
    parameters := []
    complexity := 0
    line_count := 0
    docstring := Option.none
    api_depends := []
    is_constraint := false
    is_compute := false
    is_onchange := false }

/-- String-constant decorator arguments (`isinstance(arg, ast.Str)` on
CPython ≤ 3.11, where the deprecated `ast.Str` check matches string
constants). -/
def collectStrArgs (args : List PyExpr) : List String :=
  args.filterMap fun a =>
    match a with
    | .constStr s => some s
    | _ => Option.none

/-- The decorator loop of `_extract_methods`.  A decorator of call-on-
attribute shape whose attribute base is not a plain name makes
`decorator.func.value.id` raise `AttributeError` (modeled as
`Option.none`); the exception escapes `_extract_methods` and is only
caught at file scope. -/
def processDecorators : List PyExpr → OdooMethod → Option OdooMethod
  | [], m => some m
  | d :: rest, m =>
      match d with
      | .call (.attr v a) args _ =>
          match v with
          | .nameE id =>
              if id == "api" then
                let m := { m with decorators := m.decorators ++ ["@api." ++ a] }
                let m :=
                  if a == "depends" then
                    { m with is_compute := true
                             api_depends := m.api_depends ++ collectStrArgs args }
                  else if a == "constrains" then { m with is_constraint := true }
                  else if a == "onchange" then { m with is_onchange := true }
                  else m
                processDecorators rest m
              else processDecorators rest m
          | _ => Option.none
      | _ => processDecorators rest m

/-- `ast.get_docstring`: the leading string-constant expression statement
of a body, if any (docstring cleaning is irrelevant to the claims and not
modeled). -/
def getDocstring : List PyStmt → Option String
  | .exprStmt (.constStr s) :: _ => some s
  | _ => Option.none

/-- The exact-name private-method whitelist of `_extract_methods`
(`method_name not in ['_compute_', '_inverse_', '_search_']`). -/
def methodWhitelist : List String := ["_compute_", "_inverse_", "_search_"]

/-- `_extract_methods`, folding the class-body items into the model's
method map.  Returns the updated model together with `false` when a
decorator raised `AttributeError` (processing of the remaining items
stops; methods added before the exception stay, since the model is
mutated in place). -/
def extractMethodsGo : List PyStmt → OdooModel → OdooModel × Bool
  | [], model => (model, true)
  | item :: rest, model =>
      match item with
      | .functionDef name decs args body lineno endLineno =>
          if pyStartsWith name "_" && !(methodWhitelist.contains name) then
            extractMethodsGo rest model
          else
            match processDecorators decs (newMethod name) with
            | Option.none => (model, false)
            | some meth0 =>
                let meth :=
                  { meth0 with
                      parameters := args.filter (fun a => a != "self")
                      docstring := getDocstring body
                      complexity := computeCyclomaticComplexity
                        (.functionDef name decs args body lineno endLineno)
                      line_count := endLineno - lineno }
                extractMethodsGo rest
                  { model with methods := dinsert name meth model.methods }
      | _ => extractMethodsGo rest model

/-! ## `_parse_model_file` and `_parse_models` -/

/-- First pass of `_parse_model_file`: every walked `ClassDef` that
`_is_odoo_model` accepts is extracted and stored under its name — a
truthiness-filtered plain dict assignment, so a repeated name replaces
the previously stored record wholesale. -/
def pass1 (models : Models) (cs : List ClassDef) : Models :=
  cs.foldl
    (fun ms c =>
      if isOdooModel c then
        let m := extractModelInfo c
        if pyTruthy m.name then dinsert m.name m ms else ms
      else ms)
    models

/-- Second pass of `_parse_model_file` for one class: look the class's
name up and attach its methods.  The `Bool` is `false` when
`_extract_methods` raised. -/
def processClassPass2 (models : Models) (c : ClassDef) : Models × Bool :=
  if isOdooModel c then
    let mn := getModelName c.body
    match dget mn models with
    | some m =>
        let r := extractMethodsGo c.body m
        (dinsert mn r.1 models, r.2)
    | Option.none => (models, true)
  else (models, true)

/-- Second pass of `_parse_model_file` over all classes; an escaped
exception aborts the remaining classes (it is caught by the per-file
`except`, keeping the state built so far). -/
def pass2 : Models → List ClassDef → Models
  | models, [] => models
  | models, c :: rest =>
      let r := processClassPass2 models c
      if r.2 then pass2 r.1 rest else r.1

/-- `_parse_model_file`: a file whose source fails to parse under the
Python grammar (`Option.none`) raises inside the per-file `try` and
contributes nothing; otherwise both passes run over the walked class
definitions. -/
def parseModelFile (models : Models) (file : Option (List ClassDef)) :
    Models :=
  match file with
  | Option.none => models
  | some cs => pass2 (pass1 models cs) cs

/-- `_parse_models`: fold `_parse_model_file` over the model files. -/
def parseModels (models : Models) (files : List (Option (List ClassDef))) :
    Models :=
  files.foldl parseModelFile models

/-! ## String helpers (Python `str.replace` and `str.split`) -/

/-- Python `str.replace` on character lists: non-overlapping
left-to-right replacement of every occurrence (the parser only ever calls
it with the non-empty pattern `"model_"`; the empty-pattern corner of
Python is not modeled).  The `fuel` argument only makes the recursion
structural; each step consumes at least one character, so any
`fuel ≥ l.length` computes the full replacement. -/
def replaceAll (pat rep : List Char) : Nat → List Char → List Char
  | 0, l => l
  | _ + 1, [] => []
  | fuel + 1, c :: cs =>
      if pat ≠ [] ∧ pat.isPrefixOf (c :: cs) then
        rep ++ replaceAll pat rep fuel ((c :: cs).drop pat.length)
      else c :: replaceAll pat rep fuel cs

/-- Python `s.replace(pat, rep)`. -/
def pyReplace (s pat rep : String) : String :=
  ⟨replaceAll pat.data rep.data s.data.length s.data⟩

/-- Worker for `str.split(sep)` over a character list with an accumulator
for the current (reversed) chunk. -/
def splitCharAux (sep : Char) : List Char → List Char → List String
  | [], acc => [⟨acc.reverse⟩]
  | c :: cs, acc =>
      if c = sep then (⟨acc.reverse⟩ : String) :: splitCharAux sep cs []
      else splitCharAux sep cs (c :: acc)

/-- Python `dependency.split('.')` (empty chunks preserved, as in
Python). -/
def pySplitDot (s : String) : List String :=
  splitCharAux '.' s.data []

/-! ## `_parse_access_file` (tabular security rules) -/

/-- One `csv.DictReader` row. -/
abbrev CsvRow := List (String × String)

/-- `row.get(key, default)`. -/
def rowGet (row : CsvRow) (k dflt : String) : String :=
  (dget k row).getD dflt

/-- The `SecurityRule` built from one access-file row: the `model_`
substring is removed from the entity reference (`.replace('model_', '')`
— no underscore-to-dot conversion happens), the group reference becomes a
single-element list, and each permission is the comparison of the cell
with the literal string `"1"`. -/
def parseAccessRow (row : CsvRow) : SecurityRule :=
  { name := rowGet row "id" ""
    model_id := pyReplace (rowGet row "model_id:id" "") "model_" ""
    groups := [rowGet row "group_id:id" ""]
    perm_read := rowGet row "perm_read" "0" == "1"
    perm_write := rowGet row "perm_write" "0" == "1"
    perm_create := rowGet row "perm_create" "0" == "1"
    perm_unlink := rowGet row "perm_unlink" "0" == "1"
    domain_force := Option.none }

/-- `_parse_access_file`: every row's rule is stored under its `id`. -/
def parseAccessFile (rules : List (String × SecurityRule))
    (rows : List CsvRow) : List (String × SecurityRule) :=
  rows.foldl (fun rs row => let r := parseAccessRow row; dinsert r.name r rs)
    rules

/-! ## Parser state (`OdooModuleParser` instance attributes) -/

/-- The mutable collections of an `OdooModuleParser` that the claims
touch. -/
structure ParserState where
  models : Models
  views : List (String × OdooView)
  security_rules : List (String × SecurityRule)
  model_dependencies : List (PyVal × List PyVal)
  field_dependencies : List (PyVal × List (String × PyVal))
deriving Repr, DecidableEq

/-- Freshly constructed parser: everything empty. -/
def initialState : ParserState :=
  { models := []
    views := []
    security_rules := []
    model_dependencies := []
    field_dependencies := [] }

/-! ## `_analyze_dependencies` -/

/-- Python iteration over a value: lists yield their elements, strings
yield their one-character strings; `None`/bools/ints raise `TypeError`
(modeled as `Option.none`). -/
def pyIterate : PyVal → Option (List PyVal)
  | .list xs => some xs
  | .str s => some (s.data.map fun c => PyVal.str ⟨[c]⟩)
  | _ => Option.none

/-- The compute-dependency path walk of `_analyze_dependencies`: for each
prefix segment, if it names a field of the current entity whose
`related_model` is truthy, re-target the current entity; only the first
segment's target (`if i == 0`) is recorded as a `(method, target)`
pair. -/
def depWalk (models : Models) (methodName : String) :
    List String → Nat → PyVal → List (String × PyVal) →
    List (String × PyVal)
  | [], _, _, fd => fd
  | part :: rest, i, current, fd =>
      let flds :=
        match dget current models with
        | some m => m.fields
        | Option.none => emptyModel.fields
      match dget part flds with
      | some f =>
          if pyTruthy f.related_model then
            let fd := if i == 0 then setAdd (methodName, f.related_model) fd
                      else fd
            depWalk models methodName rest (i + 1) f.related_model fd
          else depWalk models methodName rest (i + 1) current fd
      | Option.none => depWalk models methodName rest (i + 1) current fd

/-- The per-entity body of `_analyze_dependencies`: inheritance parents,
then relational fields, then compute-method paths.  Fails (`TypeError`
propagating out of the analysis) when `model.inherit` is not iterable. -/
def computeModelDeps (models : Models) (modelName : PyVal) (m : OdooModel) :
    Option (List PyVal × List (String × PyVal)) :=
  match pyIterate m.inherit with
  | Option.none => Option.none
  | some inhs =>
      let deps := inhs.foldl (fun d v => setAdd v d) []
      let p := m.fields.foldl
        (fun (p : List PyVal × List (String × PyVal)) fp =>
          if pyTruthy fp.2.related_model then
            (setAdd fp.2.related_model p.1,
             setAdd (fp.1, fp.2.related_model) p.2)
          else p)
        (deps, [])
      let fd := m.methods.foldl
        (fun fd mp =>
          if mp.2.is_compute && !mp.2.api_depends.isEmpty then
            mp.2.api_depends.foldl
              (fun fd dep =>
                let parts := pySplitDot dep
                if parts.length > 1 then
                  depWalk models mp.1 parts.dropLast 0 modelName fd
                else fd)
              fd
          else fd)
        p.2
      some (p.1, fd)

/-- The loop of `_analyze_dependencies`: for every entity, first assign
fresh empty sets into both graphs, then fill them; a `TypeError` from a
non-iterable `_inherit` aborts the loop, leaving the partially rebuilt
graphs in place (the exception propagates out of `parse_module` but the
parser object keeps its state). -/
def analyzeGo (models : Models) :
    List (PyVal × OdooModel) → List (PyVal × List PyVal) →
    List (PyVal × List (String × PyVal)) →
    (List (PyVal × List PyVal) × List (PyVal × List (String × PyVal))) × Bool
  | [], md, fd => ((md, fd), true)
  | (name, m) :: rest, md, fd =>
      let md := dinsert name [] md
      let fd := dinsert name [] fd
      match computeModelDeps models name m with
      | Option.none => ((md, fd), false)
      | some p => analyzeGo models rest (dinsert name p.1 md) (dinsert name p.2 fd)

/-- `_analyze_dependencies` on the parser state; the `Bool` is `false`
when the analysis raised. -/
def analyzeDependencies (st : ParserState) : ParserState × Bool :=
  let r := analyzeGo st.models st.models st.model_dependencies
    st.field_dependencies
  ({ st with model_dependencies := r.1.1, field_dependencies := r.1.2 }, r.2)

/-! ## `_get_security_coverage` (visualizer)

Python's `round(x, 2)` is modeled on `ℚ` with round-half-to-even; at the
values the claims evaluate (exact integers such as `0` and `100`) the
binary floating-point representation is exact and every rounding
convention agrees. -/

/-- Python `round` to an integer (half-to-even). -/
def pyRound (q : ℚ) : ℤ :=
  let f := ⌊q⌋
  let r := q - (f : ℚ)
  if r < 1 / 2 then f
  else if 1 / 2 < r then f + 1
  else if f % 2 = 0 then f else f + 1

/-- Python `round(q, 2)`. -/
def round2 (q : ℚ) : ℚ := (pyRound (q * 100) : ℚ) / 100

/-- Result of `_get_security_coverage`. -/
structure SecurityCoverage where
  models_with_rules : Nat
  coverage_percentage : ℚ
  models_missing_rules : List PyVal
deriving Repr, DecidableEq

/-- The `models_with_rules` set of `_get_security_coverage`: the
`model_id`s of rules whose target resolves to a key of the model dict. -/
def coveredModels (models : Models)
    (rules : List (String × SecurityRule)) : List String :=
  rules.foldl
    (fun acc rp =>
      if (dget (PyVal.str rp.2.model_id) models).isSome then
        setAdd rp.2.model_id acc
      else acc)
    ([] : List String)

/-- `_get_security_coverage`: the set of `model_id`s of rules whose
target is a key of the model dict, its size over the model count (as a
percentage rounded to two decimals) — and `0`, not `100.0`, when the
model dict is empty. -/
def getSecurityCoverage (models : Models)
    (rules : List (String × SecurityRule)) : SecurityCoverage :=
  let total := models.length
  let covered := coveredModels models rules
  { models_with_rules := covered.length
    coverage_percentage :=
      if 0 < total then round2 ((covered.length : ℚ) / (total : ℚ) * 100)
      else 0
    models_missing_rules :=
      ((models.map Prod.fst).dedup).filter
        (fun k => !(covered.any (fun s => PyVal.str s == k))) }

/-! ## `export_module_data` (visualizer)

The function builds a nested Python object and hands it to `json.dump`.
`PyObj` is the shape of that object; `jsonSerializable` is the predicate
"the default JSON encoder accepts it".  The raw `OdooMethod` dataclass
instances stored under `'methods'` are not serializable. -/

/-- A Python object inside the export document. -/
inductive PyObj where
  | ofVal : PyVal → PyObj
  | list : List PyObj → PyObj
  | dict : List (PyVal × PyObj) → PyObj
  | method : OdooMethod → PyObj
deriving Repr

/-- `True` for key values the JSON encoder accepts for a dict
(strings/ints/bools/`None` are coerced; an unhashable list could not have
become a key in the first place). -/
def jsonKeyOk : PyVal → Bool
  | .list _ => false
  | _ => true

mutual
/-- Whether `json.dump`'s default encoder accepts the object: literal
values yes, lists and dicts recursively, dataclass instances
(`OdooMethod`) no — they raise `TypeError`. -/
def jsonSerializable : PyObj → Bool
  | .ofVal _ => true
  | .method _ => false
  | .list xs => jsonSerializableList xs
  | .dict es => jsonSerializableDict es

/-- All list elements serializable. -/
def jsonSerializableList : List PyObj → Bool
  | [] => true
  | x :: xs => jsonSerializable x && jsonSerializableList xs

/-- All dict keys admissible and values serializable. -/
def jsonSerializableDict : List (PyVal × PyObj) → Bool
  | [] => true
  | (k, v) :: rest =>
      jsonKeyOk k && jsonSerializable v && jsonSerializableDict rest
end

/-- The per-field export dictionary. -/
def exportField (f : OdooField) : PyObj :=
  .dict
    [(.str "type", .ofVal (.str f.field_type)),
     (.str "required", .ofVal f.required),
     (.str "related_model", .ofVal f.related_model),
     (.str "compute", .ofVal f.compute),
     (.str "store", .ofVal f.store),
     (.str "readonly", .ofVal f.readonly)]

/-- The per-model export dictionary — note `'methods': model.methods`
stores the dataclass instances themselves. -/
def exportModel (m : OdooModel) : PyObj :=
  .dict
    [(.str "name", .ofVal m.name),
     (.str "description", .ofVal m.description),
     (.str "inherit", .ofVal m.inherit),
     (.str "fields", .dict (m.fields.map fun fp => (.str fp.1, exportField fp.2))),
     (.str "methods", .dict (m.methods.map fun mp => (.str mp.1, .method mp.2)))]

/-- The per-rule export dictionary. -/
def exportRule (r : SecurityRule) : PyObj :=
  .dict
    [(.str "model_id", .ofVal (.str r.model_id)),
     (.str "groups", .list (r.groups.map fun g => .ofVal (.str g))),
     (.str "perm_read", .ofVal (.bool r.perm_read)),
     (.str "perm_write", .ofVal (.bool r.perm_write)),
     (.str "perm_create", .ofVal (.bool r.perm_create)),
     (.str "perm_unlink", .ofVal (.bool r.perm_unlink))]

/-- The per-view export dictionary. -/
def exportView (v : OdooView) : PyObj :=
  .dict
    [(.str "model", .ofVal (.str v.model)),
     (.str "type", .ofVal (.str v.type)),
     (.str "inherit_id",
       .ofVal (match v.inherit_id with | some s => .str s | Option.none => .none)),
     (.str "priority", .ofVal (.int v.priority))]

/-- `export_module_data`: the complete document handed to `json.dump`. -/
def exportModuleData (moduleName : String) (st : ParserState) : PyObj :=
  .dict
    [(.str "module_name", .ofVal (.str moduleName)),
     (.str "models", .dict (st.models.map fun mp => (mp.1, exportModel mp.2))),
     (.str "security_rules",
       .dict (st.security_rules.map fun rp => (.str rp.1, exportRule rp.2))),
     (.str "views", .dict (st.views.map fun vp => (.str vp.1, exportView vp.2)))]

/-! ## Claim-specific predicates and concrete fixtures -/

/-- Whether a class body contains a `_name = <string literal>` assignment
that `ast.literal_eval` can evaluate (the "statically evaluable
string-literal name declaration" of the specification). -/
def hasStringLiteralNameDecl (c : ClassDef) : Bool :=
  c.body.any fun item =>
    match item with
    | .assign [.nameE t] v =>
        t == "_name" &&
          (match literalEval v with
           | some (.str _) => true
           | _ => false)
    | _ => false

/-- Whether one class-body item is NOT a statically evaluable `_name`
assignment (of any literal type). -/
def noEvalNameItem (item : PyStmt) : Bool :=
  match item with
  | .assign [.nameE t] v => !(t == "_name" && (literalEval v).isSome)
  | _ => true

/-- Whether a class body contains no statically evaluable `_name`
assignment at all. -/
def noEvaluableNameDeclBody (body : List PyStmt) : Bool :=
  body.all noEvalNameItem

/-- The base-expression `models.Model` of an entity declaration. -/
def modelsBase : PyExpr := .attr (.nameE "models") "Model"

/-- First declaration of entity `library.book`, carrying field `title`
(file 1 of the duplicate-name scenario). -/
def bookClassTitle : ClassDef :=
  { name := "LibraryBook"
    bases := [modelsBase]
    body :=
      [.assign [.nameE "_name"] (.constStr "library.book"),
       .assign [.nameE "title"]
         (.call (.attr (.nameE "fields") "Char") [] [("required", .constBool true)])] }

/-- Second declaration of entity `library.book`, carrying field `pages`
(file 2 of the duplicate-name scenario). -/
def bookClassPages : ClassDef :=
  { name := "LibraryBook2"
    bases := [modelsBase]
    body :=
      [.assign [.nameE "_name"] (.constStr "library.book"),
       .assign [.nameE "pages"]
         (.call (.attr (.nameE "fields") "Integer") [] [])] }

/-- The model dict after parsing the two files that both declare
`library.book`. -/
def c1Models : Models :=
  parseModels [] [some [bookClassTitle], some [bookClassPages]]

/-- An entity declaration with a private method `_compute_total` (a
whitelisted-prefix name with a suffix), a method named exactly
`_compute_`, and a public method `visible`. -/
def c4Class : ClassDef :=
  { name := "LibraryBook"
    bases := [modelsBase]
    body :=
      [.assign [.nameE "_name"] (.constStr "library.book"),
       .functionDef "_compute_total" [] ["self"] [.passS] 10 12,
       .functionDef "_compute_" [] ["self"] [.passS] 13 14,
       .functionDef "visible" [] ["self"] [.passS] 15 16] }

/-- The model dict after parsing the class with the private methods. -/
def c4Models : Models := parseModels [] [some [c4Class]]

/-- A field declaration `title = fields.Char(store=..., required=...)`
with arbitrary expressions for the two keyword arguments. -/
def c5Stmt (store required : PyExpr) : PyStmt :=
  .assign [.nameE "title"]
    (.call (.attr (.nameE "fields") "Char") []
      [("store", store), ("required", required)])

/-- A function declaration with no conditional, loop or boolean
short-circuit in its subtree. -/
def simpleMethod : PyStmt :=
  .functionDef "get_total" [] ["self"]
    [.ret (some (.call (.nameE "len") [.attr (.nameE "self") "lines"] []))]
    10 12

/-- An entity declaration whose `_name` is the evaluable non-string
literal `42` (so it has no string-literal name declaration), plus a
field. -/
def c10Class : ClassDef :=
  { name := "Weird"
    bases := [modelsBase]
    body :=
      [.assign [.nameE "_name"] (.constInt 42),
       .assign [.nameE "title"]
         (.call (.attr (.nameE "fields") "Char") [] [])] }

/-- An entity declaration that only sets an inheritance pointer (no
`_name` declaration at all) plus a field — the specification's example of
a dropped declaration. -/
def inheritOnlyClass : ClassDef :=
  { name := "BookExt"
    bases := [modelsBase]
    body :=
      [.assign [.nameE "_inherit"] (.constStr "library.book"),
       .assign [.nameE "subtitle"]
         (.call (.attr (.nameE "fields") "Char") [] [])] }

/-- A parser state with one entity that owns a method — the smallest
populated model on which `export_module_data` is exercised. -/
def c2State : ParserState :=
  { initialState with
      models :=
        [(PyVal.str "library.book",
          { emptyModel with
              name := .str "library.book"
              fields :=
                [("title",
                  { name := "title", field_type := "Char"
                    required := .bool true, related_model := .none
                    string := .none, default := .none, compute := .none
                    store := .bool true, readonly := .bool false
                    inverse := .none, index := .bool false
                    tracking := .bool false, help := .none })]
              methods := [("get_total", newMethod "get_total")] })] }

/-- The concrete tabular access row of the specification's scenario. -/
def accessRow : CsvRow :=
  [("id", "access_book"), ("model_id:id", "model_library_book"),
   ("group_id:id", "base.group_user"), ("perm_read", "1"),
   ("perm_write", "0"), ("perm_create", "0"), ("perm_unlink", "0")]

/-- A parser state for the dependency-analysis witness: one entity
inheriting from `base`, with one relational field and one compute method,
and a stale-free but nonempty prior dependency graph. -/
def c6State : ParserState :=
  { initialState with
      models :=
        [(PyVal.str "library.book",
          { emptyModel with
              name := .str "library.book"
              inherit := .list [.str "mail.thread"]
              fields :=
                [("author_id",
                  { name := "author_id", field_type := "Many2one"
                    required := .bool false
                    related_model := .str "library.author"
                    string := .none, default := .none, compute := .none
                    store := .bool true, readonly := .bool false
                    inverse := .none, index := .bool false
                    tracking := .bool false, help := .none })]
              methods := [] })]
      model_dependencies := [(PyVal.str "library.book", [.str "stale.entry"])]
      field_dependencies := [] }

/-- Models and rules for the security-coverage witness: two entities,
each matched by one rule. -/
def c7Models : Models :=
  [(PyVal.str "library.book", { emptyModel with name := .str "library.book" }),
   (PyVal.str "library.author", { emptyModel with name := .str "library.author" })]

/-- The rules covering both entities of `c7Models`. -/
def c7Rules : List (String × SecurityRule) :=
  [("access_book",
    { name := "access_book", model_id := "library.book", groups := []
      perm_read := true, perm_write := false, perm_create := false
      perm_unlink := false, domain_force := Option.none }),
   ("access_author",
    { name := "access_author", model_id := "library.author", groups := []
      perm_read := true, perm_write := false, perm_create := false
      perm_unlink := false, domain_force := Option.none })]

/-! ## Theorems -/

theorem dget_eq_none_of_not_mem {α β : Type} [DecidableEq α] {k : α}
    {l : List (α × β)} (h : k ∉ l.map Prod.fst) : dget k l = Option.none := by
  cases hd : dget k l with
  | none => rfl
  | some v =>
      exact absurd ((dget_isSome_iff_mem k l).mp (by simp [hd])) h

/-- C1, counterexample: the two files both declare `library.book`; the
first declares field `title`, the second field `pages`.  The final record
does not contain `title`, so the field map is not the additive union of
the two declarations. -/
theorem C1_counterexample :
    (dget "title" (extractModelInfo bookClassTitle).fields).isSome = true ∧
    (dget (PyVal.str "library.book") c1Models).isSome = true ∧
    ((dget (PyVal.str "library.book") c1Models).getD emptyModel).fields.map
      Prod.fst = ["pages"] := by
  decide

/-- C1, amended: same-name declarations across files collapse by full
last-write-wins — after processing a file whose single recognized class
declares a truthy entity name, the record stored under that name is
exactly what processing that file alone from an empty model dict
produces, independently of anything previously extracted under the same
name. -/
theorem C1_last_write_wins (st : Models) (c : ClassDef)
    (h1 : isOdooModel c = true)
    (h2 : pyTruthy (extractModelInfo c).name = true)
    (h3 : getModelName c.body = (extractModelInfo c).name) :
    dget (extractModelInfo c).name (parseModelFile st (some [c])) =
      dget (extractModelInfo c).name (parseModelFile [] (some [c])) := by
  simp only [parseModelFile, pass1, pass2, processClassPass2, List.foldl_cons,
    List.foldl_nil, h1, h2, h3, if_true, dget_dinsert_self]
  cases hr : extractMethodsGo c.body (extractModelInfo c) with
  | mk m' ok => cases ok <;> simp [dget_dinsert_self]

/-- C1, witness for the amended theorem: instantiated at a nonempty prior
model dict (holding the record extracted from the first file) and the
second file's class. -/
theorem C1_witness :
    isOdooModel bookClassPages = true ∧
    pyTruthy (extractModelInfo bookClassPages).name = true ∧
    dget (extractModelInfo bookClassPages).name
        (parseModelFile (pass1 [] [bookClassTitle]) (some [bookClassPages])) =
      dget (extractModelInfo bookClassPages).name
        (parseModelFile [] (some [bookClassPages])) :=
  ⟨by decide, by decide,
    C1_last_write_wins (pass1 [] [bookClassTitle]) bookClassPages
      (by decide) (by decide) (by decide)⟩

/-- C2: exporting a populated structural model does not succeed — the
per-model dictionary stores the raw `OdooMethod` dataclass instances
under `'methods'`, which `json.dump`'s default encoder rejects with
`TypeError`, so the export of any model owning at least one method
fails. -/
theorem C2_export_method_not_serializable :
    c2State.models ≠ [] ∧
    ((dget (PyVal.str "library.book") c2State.models).getD
      emptyModel).methods ≠ [] ∧
    jsonSerializable (exportModuleData "library" c2State) = false := by
  decide

/-- C3, counterexample: on the scenario row, `.replace('model_', '')`
leaves the underscores in place, so the rule's `model_id` is
`library_book`, not the claimed `library.book`. -/
theorem C3_counterexample :
    (parseAccessRow accessRow).model_id = "library_book" ∧
    (parseAccessRow accessRow).model_id ≠ "library.book" := by
  decide

/-- C3, amended: the scenario row yields a `SecurityRule` with `model_id`
`library_book` (the fixed prefix stripped, underscores preserved),
`perm_read` true, the other three permissions false, and the single-entry
group list; the rule is stored under its `id`. -/
theorem C3_access_row_parsing :
    parseAccessRow accessRow =
      { name := "access_book", model_id := "library_book"
        groups := ["base.group_user"], perm_read := true, perm_write := false
        perm_create := false, perm_unlink := false,
        domain_force := Option.none } ∧
    dget "access_book" (parseAccessFile [] [accessRow]) =
      some (parseAccessRow accessRow) := by
  decide

/-- C8: a file that fails to parse under the source grammar is caught at
file scope and contributes nothing: running the extraction with the
failing file inserted anywhere yields exactly the model dict of the run
without it, from any starting state. -/
theorem C8_failed_file_isolated (st : Models)
    (fs1 fs2 : List (Option (List ClassDef))) :
    parseModels st (fs1 ++ Option.none :: fs2) = parseModels st (fs1 ++ fs2) := by
  simp only [parseModels, List.foldl_append, List.foldl_cons]
  rfl

/-- C8, witness: a concrete run with a syntactically failing file between
two good ones equals the run without it. -/
theorem C8_witness :
    parseModels [] [some [bookClassTitle], Option.none, some [bookClassPages]] =
      parseModels [] [some [bookClassTitle], some [bookClassPages]] :=
  C8_failed_file_isolated [] [some [bookClassTitle]] [some [bookClassPages]]

/-- C9: a method whose syntax subtree contains no conditional, no loop
and no boolean-short-circuit expression has cyclomatic complexity exactly
1 (the metric's base value). -/
theorem C9_complexity_floor (name : String) (decs : List PyExpr)
    (args : List String) (body : List PyStmt) (l e : Int)
    (h : noBranchStmt (.functionDef name decs args body l e) = true) :
    computeCyclomaticComplexity (.functionDef name decs args body l e) = 1 := by
  unfold computeCyclomaticComplexity
  rw [stmtBranches_of_noBranch _ h]

/-- C9, witness: a concrete straight-line method. -/
theorem C9_witness :
    noBranchStmt simpleMethod = true ∧
    computeCyclomaticComplexity simpleMethod = 1 :=
  ⟨by decide,
    C9_complexity_floor "get_total" [] ["self"]
      [.ret (some (.call (.nameE "len") [.attr (.nameE "self") "lines"] []))]
      10 12 (by decide)⟩

theorem extractMethodsGo_skip_preserved (mname : String)
    (h1 : pyStartsWith mname "_" = true)
    (h2 : methodWhitelist.contains mname = false) :
    ∀ (items : List PyStmt) (m : OdooModel),
      dget mname (extractMethodsGo items m).1.methods =
        dget mname m.methods := by
  intro items
  induction items with
  | nil => intro m; rfl
  | cons item rest ih =>
      intro m
      cases item with
      | functionDef n decs args body l e =>
          by_cases hskip :
              (pyStartsWith n "_" && !(methodWhitelist.contains n)) = true
          · simp only [extractMethodsGo, hskip, if_true]
            exact ih m
          · have hne : n ≠ mname := by
              intro heq
              rw [heq, h1, h2] at hskip
              simp at hskip
            simp only [extractMethodsGo, hskip, Bool.false_eq_true,
              if_false]
            cases hpd : processDecorators decs (newMethod n) with
            | none => simp [hpd]
            | some meth0 =>
                simp only [hpd]
                rw [ih]
                exact dget_dinsert_ne _ _ (Ne.symm hne)
      | assign ts v => exact ih m
      | exprStmt ex => exact ih m
      | ifS t b o => exact ih m
      | whileS t b => exact ih m
      | forS tg it b o => exact ih m
      | ret ex => exact ih m
      | passS => exact ih m

/-- C4, counterexample: `_compute_total` begins with the privacy marker
and carries a whitelisted *prefix* with a suffix, yet it is not
extracted — the whitelist check is exact-name membership, not prefix
matching; public methods in the same class are extracted. -/
theorem C4_counterexample :
    (dget (PyVal.str "library.book") c4Models).isSome = true ∧
    ((dget (PyVal.str "library.book") c4Models).getD emptyModel).methods.map
        Prod.fst = ["_compute_", "visible"] ∧
    dget "_compute_total"
      ((dget (PyVal.str "library.book") c4Models).getD emptyModel).methods =
      Option.none := by
  decide

/-- C4, amended: a method whose name begins with the privacy marker is
excluded from extraction unless its name is *exactly* one of the
whitelisted strings `_compute_`, `_inverse_`, `_search_` — method
extraction leaves the method map unchanged at every such excluded name
(first conjunct), while a method named exactly `_compute_` is extracted
(second conjunct). -/
theorem C4_private_method_exact_whitelist (mname : String)
    (h1 : pyStartsWith mname "_" = true)
    (h2 : methodWhitelist.contains mname = false) :
    (∀ (items : List PyStmt) (m : OdooModel),
        dget mname (extractMethodsGo items m).1.methods =
          dget mname m.methods) ∧
    (dget "_compute_"
        ((dget (PyVal.str "library.book") c4Models).getD emptyModel).methods
      ).isSome = true :=
  ⟨extractMethodsGo_skip_preserved mname h1 h2, by decide⟩

/-- C4, witness for the amended theorem: instantiated at `_compute_total`
and the concrete class body, where nothing is added under that name. -/
theorem C4_witness :
    pyStartsWith "_compute_total" "_" = true ∧
    methodWhitelist.contains "_compute_total" = false ∧
    dget "_compute_total" (extractMethodsGo c4Class.body emptyModel).1.methods =
      dget "_compute_total" emptyModel.methods :=
  ⟨by decide, by decide,
    (C4_private_method_exact_whitelist "_compute_total" (by decide)
      (by decide)).1 c4Class.body emptyModel⟩

/-- C5, counterexample: with the non-literal keyword arguments
`store=dynamic` and `required=dynamic`, the field is extracted but the
two attributes are Python `None` — not the defaults `True` and `False`
the claim asserts. -/
theorem C5_counterexample :
    ((extractFieldInfo (c5Stmt (.nameE "dynamic") (.nameE "dynamic"))).map
        fun f => (f.store, f.required)) =
      some (PyVal.none, PyVal.none) ∧
    PyVal.none ≠ PyVal.bool true ∧
    PyVal.none ≠ PyVal.bool false := by
  decide

/-- C5, amended: a field declaration whose `store`/`required` keyword
arguments are not statically evaluable literals is still extracted, but
the parameter bag records the arguments as `None`
(`params[kw.arg] = None`), so `params.get` returns that `None` instead of
the documented defaults: the resulting attributes are Python `None`. -/
theorem C5_nonliteral_kwarg_none (store required : PyExpr)
    (h1 : literalEval store = Option.none)
    (h2 : literalEval required = Option.none) :
    ((extractFieldInfo (c5Stmt store required)).map
        fun f => (f.store, f.required, f.field_type)) =
      some (PyVal.none, PyVal.none, "Char") := by
  simp [c5Stmt, extractFieldInfo, h1, h2, pget, dinsert, dget, pyStartsWith]

/-- C5, witness for the amended theorem: instantiated at the name
expression `dynamic`, which `ast.literal_eval` rejects. -/
theorem C5_witness :
    literalEval (.nameE "dynamic") = Option.none ∧
    ((extractFieldInfo (c5Stmt (.nameE "dynamic") (.nameE "dynamic"))).map
        fun f => (f.store, f.required, f.field_type)) =
      some (PyVal.none, PyVal.none, "Char") :=
  ⟨by decide,
    C5_nonliteral_kwarg_none (.nameE "dynamic") (.nameE "dynamic")
      (by decide) (by decide)⟩

theorem getModelName_of_noEval :
    ∀ body : List PyStmt, noEvaluableNameDeclBody body = true →
      getModelName body = .none := by
  intro body
  induction body with
  | nil => intro _; rfl
  | cons head rest ih =>
      intro h
      rw [noEvaluableNameDeclBody, List.all_cons, Bool.and_eq_true] at h
      obtain ⟨h1, h2⟩ := h
      cases head with
      | assign targets v =>
          match targets with
          | [] => exact ih h2
          | t0 :: t1 :: ts => cases t0 <;> exact ih h2
          | [t0] =>
              cases t0 with
              | nameE tname =>
                  by_cases ht : tname = "_name"
                  · subst ht
                    have hv : literalEval v = Option.none := by
                      simp [noEvalNameItem] at h1
                      exact Option.not_isSome_iff_eq_none.mp (by simp [h1])
                    simp [getModelName, hv]
                    exact ih h2
                  · simp [getModelName, ht]
                    exact ih h2
              | constStr s => exact ih h2
              | constInt n => exact ih h2
              | constBool b => exact ih h2
              | constNone => exact ih h2
              | listE xs => exact ih h2
              | attr a b => exact ih h2
              | call f as' ks => exact ih h2
              | boolop b vs => exact ih h2
      | functionDef n d a b l e => exact ih h2
      | exprStmt e => exact ih h2
      | ifS t b o => exact ih h2
      | whileS t b => exact ih h2
      | forS tg it b o => exact ih h2
      | ret e => exact ih h2
      | passS => exact ih h2

theorem processModelItem_name (m : OdooModel) (item : PyStmt)
    (h : noEvalNameItem item = true) :
    (processModelItem m item).name = m.name := by
  cases item with
  | assign targets v =>
      match targets with
      | [] => rfl
      | t0 :: t1 :: ts => cases t0 <;> rfl
      | [t0] =>
          cases t0 with
          | nameE tname =>
              cases hle : literalEval v with
              | none =>
                  simp only [processModelItem, hle]
                  cases hf : extractFieldInfo (.assign [.nameE tname] v) <;>
                    simp [hf]
              | some val =>
                  have ht : (tname == "_name") = false := by
                    simp only [noEvalNameItem, hle, Option.isSome_some,
                      Bool.and_true, Bool.not_eq_true'] at h
                    exact h
                  simp only [processModelItem, hle, ht, Bool.false_eq_true,
                    if_false]
                  cases hf : extractFieldInfo (.assign [.nameE tname] v) <;>
                    simp only [hf] <;> split_ifs <;> rfl
          | constStr s => rfl
          | constInt n => rfl
          | constBool b => rfl
          | constNone => rfl
          | listE xs => rfl
          | attr a b => rfl
          | call f as' ks => rfl
          | boolop b vs => rfl
  | functionDef n d a b l e => rfl
  | exprStmt e => rfl
  | ifS t b o => rfl
  | whileS t b => rfl
  | forS tg it b o => rfl
  | ret e => rfl
  | passS => rfl

theorem foldl_processModelItem_name :
    ∀ (items : List PyStmt) (m : OdooModel),
      noEvaluableNameDeclBody items = true →
      (items.foldl processModelItem m).name = m.name := by
  intro items
  induction items with
  | nil => intro m _; rfl
  | cons head rest ih =>
      intro m h
      rw [noEvaluableNameDeclBody, List.all_cons, Bool.and_eq_true] at h
      rw [List.foldl_cons, ih _ h.2, processModelItem_name m head h.1]

/-- C10, counterexample: the class sets `_name = 42` — an evaluable
literal that is not a string literal, so the class "contains no
statically evaluable string-literal name declaration" — yet extraction
contributes an Entity (keyed by the integer 42) whose field map holds the
class's field. -/
theorem C10_counterexample :
    hasStringLiteralNameDecl c10Class = false ∧
    isOdooModel c10Class = true ∧
    (dget (PyVal.int 42) (parseModels [] [some [c10Class]])).isSome = true ∧
    ((dget (PyVal.int 42) (parseModels [] [some [c10Class]])).getD
        emptyModel).fields.map Prod.fst = ["title"] := by
  decide

/-- C10, amended: an entity declaration with *no statically evaluable
name declaration at all* contributes nothing — processing a file holding
only that class leaves the model dict unchanged (fields and methods
included), silently.  (An evaluable but non-string truthy `_name` such as
`42` does create an Entity keyed by that value, which is what the
counterexample forces the claim to exclude.)  The second hypothesis is
the representation invariant of `self.models`: every key was filtered by
`if model.name:`, hence truthy. -/
theorem C10_no_evaluable_name (ms : Models) (c : ClassDef)
    (h1 : noEvaluableNameDeclBody c.body = true)
    (h2 : ∀ k ∈ ms.map Prod.fst, pyTruthy k = true) :
    parseModelFile ms (some [c]) = ms := by
  by_cases hm : isOdooModel c = true
  · have hname : (extractModelInfo c).name = .str "" :=
      foldl_processModelItem_name c.body emptyModel h1
    have htr : pyTruthy (extractModelInfo c).name = false := by
      rw [hname]; rfl
    have hgm : getModelName c.body = .none := getModelName_of_noEval c.body h1
    have hdg : dget PyVal.none ms = (Option.none : Option OdooModel) := by
      apply dget_eq_none_of_not_mem
      intro hmem
      have := h2 _ hmem
      simp [pyTruthy] at this
    simp [parseModelFile, pass1, pass2, processClassPass2, hm, htr, hgm, hdg]
  · have hm' : isOdooModel c = false := by simpa using hm
    simp [parseModelFile, pass1, pass2, processClassPass2, hm']

/-- C10, witness for the amended theorem: a declaration that only sets an
inheritance pointer contributes nothing even against a populated model
dict. -/
theorem C10_witness :
    noEvaluableNameDeclBody inheritOnlyClass.body = true ∧
    parseModelFile (pass1 [] [bookClassTitle]) (some [inheritOnlyClass]) =
      pass1 [] [bookClassTitle] :=
  ⟨by decide,
    C10_no_evaluable_name (pass1 [] [bookClassTitle]) inheritOnlyClass
      (by decide) (by decide)⟩

theorem analyzeGo_ok_spec (models : Models) :
    ∀ (items : List (PyVal × OdooModel)) (md : List (PyVal × List PyVal))
      (fd : List (PyVal × List (String × PyVal))),
      (items.map Prod.fst).Nodup →
      (analyzeGo models items md fd).2 = true →
      ∀ k : PyVal,
        (∀ m, dget k items = some m →
          ∃ p, computeModelDeps models k m = some p ∧
            dget k (analyzeGo models items md fd).1.1 = some p.1 ∧
            dget k (analyzeGo models items md fd).1.2 = some p.2) ∧
        (dget k items = Option.none →
          dget k (analyzeGo models items md fd).1.1 = dget k md ∧
          dget k (analyzeGo models items md fd).1.2 = dget k fd) := by
  intro items
  induction items with
  | nil =>
      intro md fd _ _ k
      refine ⟨fun m hm => ?_, fun _ => ⟨rfl, rfl⟩⟩
      simp [dget] at hm
  | cons hd rest ih =>
      obtain ⟨name, m0⟩ := hd
      intro md fd hnd hok k
      cases hcd : computeModelDeps models name m0 with
      | none =>
          exfalso
          simp [analyzeGo, hcd] at hok
      | some p0 =>
          have hstep : analyzeGo models ((name, m0) :: rest) md fd =
              analyzeGo models rest (dinsert name p0.1 (dinsert name [] md))
                (dinsert name p0.2 (dinsert name [] fd)) := by
            simp [analyzeGo, hcd]
          rw [hstep] at hok ⊢
          have hnd2 : name ∉ rest.map Prod.fst ∧ (rest.map Prod.fst).Nodup := by
            rw [List.map_cons, List.nodup_cons] at hnd
            exact hnd
          have hih := ih (dinsert name p0.1 (dinsert name [] md))
            (dinsert name p0.2 (dinsert name [] fd)) hnd2.2 hok
          by_cases hk : k = name
          · subst hk
            constructor
            · intro m hm
              have hm0 : m0 = m := by simpa [dget] using hm
              subst hm0
              have hrest : dget k rest = (Option.none : Option OdooModel) :=
                dget_eq_none_of_not_mem hnd2.1
              have hfin := (hih k).2 hrest
              exact ⟨p0, hcd, by rw [hfin.1, dget_dinsert_self],
                by rw [hfin.2, dget_dinsert_self]⟩
            · intro hm
              simp [dget] at hm
          · constructor
            · intro m hm
              have hm' : dget k rest = some m := by simpa [dget, hk] using hm
              exact (hih k).1 m hm'
            · intro hm
              have hm' : dget k rest = (Option.none : Option OdooModel) := by
                simpa [dget, hk] using hm
              have hfin := (hih k).2 hm'
              exact ⟨by rw [hfin.1, dget_dinsert_ne _ _ hk, dget_dinsert_ne _ _ hk],
                by rw [hfin.2, dget_dinsert_ne _ _ hk, dget_dinsert_ne _ _ hk]⟩

/-- C6: when dependency analysis completes, the dependency graph and the
field-dependency graph have as keys exactly the entity names present in
the model dict (a never-declared name is not a key), and the entry at
every declared entity is the freshly computed dependency pair — a
function of the current model dict only, independent of the graphs'
prior contents.  The subset hypotheses are the program invariant that
the graphs' previous keys came from earlier (monotonically grown) model
dicts; the `Nodup` hypothesis is the dictionary representation
invariant. -/
theorem C6_dependency_graph_keys (st : ParserState)
    (hmd : ∀ k ∈ st.model_dependencies.map Prod.fst,
      k ∈ st.models.map Prod.fst)
    (hfd : ∀ k ∈ st.field_dependencies.map Prod.fst,
      k ∈ st.models.map Prod.fst)
    (hnd : (st.models.map Prod.fst).Nodup)
    (hok : (analyzeDependencies st).2 = true) :
    ∀ k : PyVal,
      ((dget k (analyzeDependencies st).1.model_dependencies).isSome = true ↔
        k ∈ st.models.map Prod.fst) ∧
      ((dget k (analyzeDependencies st).1.field_dependencies).isSome = true ↔
        k ∈ st.models.map Prod.fst) ∧
      (∀ m, dget k st.models = some m →
        ∃ p, computeModelDeps st.models k m = some p ∧
          dget k (analyzeDependencies st).1.model_dependencies = some p.1 ∧
          dget k (analyzeDependencies st).1.field_dependencies = some p.2) := by
  intro k
  have hgo := analyzeGo_ok_spec st.models st.models st.model_dependencies
    st.field_dependencies hnd hok k
  have heq1 : (analyzeDependencies st).1.model_dependencies =
      (analyzeGo st.models st.models st.model_dependencies
        st.field_dependencies).1.1 := rfl
  have heq2 : (analyzeDependencies st).1.field_dependencies =
      (analyzeGo st.models st.models st.model_dependencies
        st.field_dependencies).1.2 := rfl
  by_cases hk : k ∈ st.models.map Prod.fst
  · obtain ⟨m, hm⟩ := Option.isSome_iff_exists.mp
      ((dget_isSome_iff_mem k st.models).mpr hk)
    obtain ⟨p, hp, h1, h2⟩ := hgo.1 m hm
    refine ⟨?_, ?_, ?_⟩
    · rw [heq1, h1]; simp [hk]
    · rw [heq2, h2]; simp [hk]
    · intro m' hm'
      rw [hm] at hm'
      cases hm'
      exact ⟨p, hp, by rw [heq1, h1], by rw [heq2, h2]⟩
  · have hnone : dget k st.models = (Option.none : Option OdooModel) :=
      dget_eq_none_of_not_mem hk
    have hfin := hgo.2 hnone
    have hmd' : dget k st.model_dependencies =
        (Option.none : Option (List PyVal)) :=
      dget_eq_none_of_not_mem (fun hmem => hk (hmd k hmem))
    have hfd' : dget k st.field_dependencies =
        (Option.none : Option (List (String × PyVal))) :=
      dget_eq_none_of_not_mem (fun hmem => hk (hfd k hmem))
    refine ⟨?_, ?_, ?_⟩
    · rw [heq1, hfin.1, hmd']; simp [hk]
    · rw [heq2, hfin.2, hfd']; simp [hk]
    · intro m hm
      rw [hnone] at hm
      cases hm

/-- C6, witness: the concrete state with one declared entity
(`library.book`), a dangling inheritance target and relational target,
and a nonempty prior graph; the graphs' keys after analysis are exactly
the declared entity. -/
theorem C6_witness :
    (analyzeDependencies c6State).2 = true ∧
    (((dget (PyVal.str "library.book")
        (analyzeDependencies c6State).1.model_dependencies).isSome = true) ↔
      PyVal.str "library.book" ∈ c6State.models.map Prod.fst) :=
  ⟨by decide,
    (C6_dependency_graph_keys c6State (by decide) (by decide) (by decide)
      (by decide) (PyVal.str "library.book")).1⟩

theorem pyRound_intCast (n : ℤ) : pyRound ((n : ℚ)) = n := by
  simp only [pyRound, Int.floor_intCast, sub_self]
  norm_num

theorem mem_coveredFold (models : Models) :
    ∀ (rules : List (String × SecurityRule)) (acc : List String) (s : String),
      (s ∈ rules.foldl
        (fun acc rp =>
          if (dget (PyVal.str rp.2.model_id) models).isSome then
            setAdd rp.2.model_id acc
          else acc) acc) ↔
      s ∈ acc ∨ ∃ rp ∈ rules, rp.2.model_id = s ∧
        (dget (PyVal.str s) models).isSome = true := by
  intro rules
  induction rules with
  | nil => intro acc s; simp
  | cons rp rest ih =>
      intro acc s
      rw [List.foldl_cons]
      by_cases hc : (dget (PyVal.str rp.2.model_id) models).isSome = true
      · rw [if_pos hc, ih]
        constructor
        · rintro (hmem | ⟨rp', hrp', hs, hdg⟩)
          · rcases (mem_setAdd s rp.2.model_id acc).mp hmem with heq | hacc
            · exact Or.inr ⟨rp, List.mem_cons_self rp rest, heq.symm,
                by rw [heq]; exact hc⟩
            · exact Or.inl hacc
          · exact Or.inr ⟨rp', List.mem_cons_of_mem rp hrp', hs, hdg⟩
        · rintro (hacc | ⟨rp', hrp', hs, hdg⟩)
          · exact Or.inl ((mem_setAdd s rp.2.model_id acc).mpr (Or.inr hacc))
          · rcases List.mem_cons.mp hrp' with rfl | hrest
            · exact Or.inl
                ((mem_setAdd s rp'.2.model_id acc).mpr (Or.inl hs.symm))
            · exact Or.inr ⟨rp', hrest, hs, hdg⟩
      · rw [if_neg hc, ih]
        constructor
        · rintro (hacc | ⟨rp', hrp', hs, hdg⟩)
          · exact Or.inl hacc
          · exact Or.inr ⟨rp', List.mem_cons_of_mem rp hrp', hs, hdg⟩
        · rintro (hacc | ⟨rp', hrp', hs, hdg⟩)
          · exact Or.inl hacc
          · rcases List.mem_cons.mp hrp' with rfl | hrest
            · exact absurd (by rw [hs]; exact hdg) hc
            · exact Or.inr ⟨rp', hrest, hs, hdg⟩

theorem nodup_coveredFold (models : Models) :
    ∀ (rules : List (String × SecurityRule)) (acc : List String),
      acc.Nodup →
      (rules.foldl
        (fun acc rp =>
          if (dget (PyVal.str rp.2.model_id) models).isSome then
            setAdd rp.2.model_id acc
          else acc) acc).Nodup := by
  intro rules
  induction rules with
  | nil => intro acc h; exact h
  | cons rp rest ih =>
      intro acc h
      rw [List.foldl_cons]
      by_cases hc : (dget (PyVal.str rp.2.model_id) models).isSome = true
      · rw [if_pos hc]
        exact ih _ (nodup_setAdd _ _ h)
      · rw [if_neg hc]
        exact ih _ h

/-- C7, counterexample: with an empty entity set the claim's hypothesis
("every entity has at least one resolving rule") holds vacuously, yet the
accessor returns `0`, not `100.0`. -/
theorem C7_counterexample :
    (∀ k ∈ (([] : Models)).map Prod.fst,
        ∃ rp ∈ ([] : List (String × SecurityRule)),
          PyVal.str rp.2.model_id = k) ∧
    (getSecurityCoverage [] []).coverage_percentage = 0 ∧
    (0 : ℚ) ≠ 100 := by
  refine ⟨by simp, by decide, by norm_num⟩

/-- C7, amended: on a *nonempty* entity set in which every entity has at
least one rule whose target-entity reference resolves to it, the
security-coverage accessor returns exactly `100.0`; on an empty entity
set it returns `0`. -/
theorem C7_full_coverage_100 (models : Models)
    (rules : List (String × SecurityRule))
    (hnd : (models.map Prod.fst).Nodup)
    (hne : models ≠ [])
    (hcov : ∀ k ∈ models.map Prod.fst,
      ∃ rp ∈ rules, PyVal.str rp.2.model_id = k) :
    (getSecurityCoverage models rules).coverage_percentage = 100 := by
  have hmem : ∀ s : String,
      s ∈ coveredModels models rules ↔
        PyVal.str s ∈ models.map Prod.fst := by
    intro s
    rw [coveredModels, mem_coveredFold]
    constructor
    · rintro (h | ⟨rp, hrp, hs, hdg⟩)
      · simp at h
      · exact (dget_isSome_iff_mem _ _).mp hdg
    · intro hk
      obtain ⟨rp, hrp, hps⟩ := hcov _ hk
      have hs : rp.2.model_id = s := by
        simpa using hps
      exact Or.inr ⟨rp, hrp, hs, (dget_isSome_iff_mem _ _).mpr hk⟩
  have hndc : (coveredModels models rules).Nodup :=
    nodup_coveredFold models rules [] (by simp)
  have hinj : Function.Injective PyVal.str := fun a b h => by
    simpa using h
  have hperm : List.Perm ((coveredModels models rules).map PyVal.str)
      (models.map Prod.fst) := by
    rw [List.perm_ext_iff_of_nodup (hndc.map hinj) hnd]
    intro a
    constructor
    · intro ha
      obtain ⟨s, hs, rfl⟩ := List.mem_map.mp ha
      exact (hmem s).mp hs
    · intro ha
      obtain ⟨rp, hrp, hps⟩ := hcov _ ha
      exact List.mem_map.mpr
        ⟨rp.2.model_id, (hmem _).mpr (by rw [hps]; exact ha), hps⟩
  have hlen : (coveredModels models rules).length = models.length := by
    have := hperm.length_eq
    simpa using this
  have hpos : 0 < models.length := List.length_pos.mpr hne
  have h0 : (models.length : ℚ) ≠ 0 := by
    exact_mod_cast Nat.pos_iff_ne_zero.mp hpos
  simp only [getSecurityCoverage]
  rw [if_pos hpos, hlen, div_self h0, one_mul]
  have h1 : (100 : ℚ) * 100 = ((10000 : ℤ) : ℚ) := by norm_num
  rw [round2, h1, pyRound_intCast]
  norm_num

/-- C7, witness for the amended theorem: two entities, each covered by a
rule whose `model_id` resolves to it; coverage is exactly 100. -/
theorem C7_witness :
    c7Models ≠ [] ∧
    (getSecurityCoverage c7Models c7Rules).coverage_percentage = 100 :=
  ⟨by decide,
    C7_full_coverage_100 c7Models c7Rules (by decide) (by decide) (by decide)⟩

end OdooAnalyzer
